import Mathlib

/-!
Verification development for the AI English Learning Assistant repository.

Shallow embedding, in Lean 4, of the parts of the code base that the
stated properties are about:

* `src/utils/validators.py` — message/URL validators,
* `src/config.py` — the `AppConfig` constant groups (model configuration),
* `src/core/events.py` — `EventManager.emit`,
* `src/services/ollama_service.py` — model selection, HTTP request
  outcome handling, response generation, translation fallback ladder,
* `src/services/chat_service.py` — `ChatService.send_message`,
* `src/models/{message,translation,session}.py` — domain models and
  their dict round-trips,
* `src/src/services/error_service.py` — `ErrorMemoryService`,
* `src/src/modes/interactive_mode.py` — difficulty state machine,
* `src/src/modes/smart_chat_mode.py` — fluency scoring.

Python dictionaries with a fixed key set become Lean structures; Python
exceptions become `Except`/`Option` results; the mutable global
configuration list touched by `translate_text` is threaded explicitly as
state.  Numeric scores are modelled with exact rationals.
-/

/-! ## String helpers

Python's `needle in haystack` substring operator and `str.lower`,
modelled directly on character lists. -/

/-- Is `pre` a leading segment of `l`?  (Python: `haystack.startswith`). -/
def listLeads : List Char → List Char → Bool
  | [], _ => true
  | _ :: _, [] => false
  | a :: as, b :: bs => a = b && listLeads as bs

/-- Does `needle` occur contiguously inside `hay`?  (Python: `needle in hay`). -/
def listSub (needle : List Char) : List Char → Bool
  | [] => needle.isEmpty
  | c :: t => listLeads needle (c :: t) || listSub needle t

/-- Python `needle in hay` on strings. -/
def strIn (needle hay : String) : Bool :=
  listSub needle.data hay.data

/-- The whitespace characters Python's default `strip`/`split` treat as
separators (the forms that occur in the program's data). -/
def isSpaceChar (c : Char) : Bool :=
  c = ' ' || c = '\t' || c = '\n' || c = '\r'

/-- Python `str.strip()`. -/
def pyStrip (s : String) : String :=
  ⟨((s.data.dropWhile isSpaceChar).reverse.dropWhile isSpaceChar).reverse⟩

/-- ASCII lowering of one character (what `str.lower` does on the model
names and corrections the code compares). -/
def lowerChar (c : Char) : Char :=
  if 65 ≤ c.toNat ∧ c.toNat ≤ 90 then Char.ofNat (c.toNat + 32) else c

/-- Python `str.lower`. -/
def strLower (s : String) : String :=
  ⟨s.data.map lowerChar⟩

/-- Accumulator for `pySplit`: gathered words so far come out in order,
the current partial word is held reversed. -/
def wordsAux : List Char → List Char → List (List Char)
  | [], cur => if cur.isEmpty then [] else [cur.reverse]
  | c :: t, cur =>
      if isSpaceChar c then
        if cur.isEmpty then wordsAux t [] else cur.reverse :: wordsAux t []
      else wordsAux t (c :: cur)

/-- Python `str.split()` with no argument: maximal non-whitespace runs. -/
def pySplit (s : String) : List String :=
  (wordsAux s.data []).map (fun l => ⟨l⟩)

/-! ## `src/utils/validators.py` -/

/-- `validate_message` (src/utils/validators.py lines 7-18): a message is
valid iff its stripped form is non-empty and at most 1000 characters.
(The `isinstance(message, str)` guard is redundant under Lean's typing.) -/
def validate_message (message : String) : Bool :=
  if pyStrip message = "" then false
  else if (pyStrip message).data.length > 1000 then false
  else true

/-- `validate_url` (src/utils/validators.py lines 21-29):
`url.startswith(('http://', 'https://'))`. -/
def validate_url (url : String) : Bool :=
  listLeads "http://".data url.data || listLeads "https://".data url.data

/-! ## `src/config.py` — `AppConfig` model constants -/

/-- `MODEL_CONFIG['preferred_order']` (src/config.py line 34). -/
def preferred_order : List String :=
  ["mistral", "gemma", "llama3.1", "llama3", "llama2"]

/-- `MODEL_CONFIG['translation_timeouts']` (src/config.py line 40): the
initial contents of the class-level list object.  `get_model_config`
returns `MODEL_CONFIG.copy()`, a shallow copy, so every service instance's
`model_config['translation_timeouts']` aliases this one list object; its
current contents are threaded through the functions below as explicit
state. -/
def translation_timeouts_init : List Nat := [20, 30, 45]

/-! ## `src/src/services/error_service.py` — `ErrorMemoryService`

The errors memory is a Python dict keyed by the lowercased correction.
Dicts preserve insertion order, so it is modelled as an association list
with unique keys.  The count (`"veces"`) is modelled as `Int` so that the
"never negative" part of the property is a genuine statement. -/

/-- One record of the errors memory: `{"veces": …, "ultima_fecha": …,
"originales": […]}`.  Timestamps are the already-formatted strings the
code stores. -/
structure ErrorRecord where
  veces : Int
  ultima_fecha : Option String
  originales : List String
  deriving DecidableEq, Repr

/-- The in-memory errors map (`self.errors_memory`). -/
abbrev ErrorsMemory := List (String × ErrorRecord)

/-- Dict lookup. -/
def ErrorsMemory.lookup (m : ErrorsMemory) (k : String) : Option ErrorRecord :=
  match m with
  | [] => none
  | (k', r) :: t => if k' = k then some r else ErrorsMemory.lookup t k

/-- Update the value stored at an existing key, keeping insertion order. -/
def ErrorsMemory.setAt (m : ErrorsMemory) (k : String) (r : ErrorRecord) : ErrorsMemory :=
  match m with
  | [] => []
  | (k', r') :: t => if k' = k then (k', r) :: t else (k', r') :: ErrorsMemory.setAt t k r

/-- `register_error` (src/src/services/error_service.py lines 35-49):
insert a fresh `{veces: 0, ultima_fecha: None, originales: []}` record
under `correction.lower()` if absent, then increment `veces`, stamp
`ultima_fecha` with the current time and append the original utterance.
(`_save_errors` writes the whole map to disk; the file contents mirror
the in-memory map, so persistence adds nothing to the property.) -/
def register_error (m : ErrorsMemory) (original correction now : String) : ErrorsMemory :=
  let key := strLower correction
  let m1 : ErrorsMemory :=
    match m.lookup key with
    | some _ => m
    | none => m ++ [(key, { veces := 0, ultima_fecha := none, originales := [] })]
  match m1.lookup key with
  | some r =>
      m1.setAt key { veces := r.veces + 1, ultima_fecha := some now,
                     originales := r.originales ++ [original] }
  | none => m1

/-- `check_improvement` (src/src/services/error_service.py lines 59-66):
walk the map in order; at the first record whose key equals
`text.lower()` and whose count is positive, decrement the count and
return `true`; if no record matches, return `false` with the map
unchanged. -/
def check_improvement (m : ErrorsMemory) (text : String) : Bool × ErrorsMemory :=
  match m with
  | [] => (false, [])
  | (k, r) :: t =>
      if strLower text = k ∧ r.veces > 0 then
        (true, (k, { r with veces := r.veces - 1 }) :: t)
      else
        let (b, t') := check_improvement t text
        (b, (k, r) :: t')

/-- All counts in the memory are non-negative. -/
def ErrorsMemory.nonneg (m : ErrorsMemory) : Prop :=
  ∀ p ∈ m, 0 ≤ p.2.veces

/-! ## `src/core/events.py` — `EventManager.emit`

`emit` walks the handler list for the event kind in registration order
and invokes each handler inside a `try`/`except` that logs and swallows
any exception, so the loop always continues to the next handler and
`emit` itself returns normally. -/

/-- Outcome of invoking one handler: it either returns or raises. -/
inductive HandlerOutcome where
  | ok
  | raised (msg : String)
  deriving DecidableEq, Repr

/-- `EventManager.emit` (src/core/events.py lines 57-70), restricted to
the handler list registered for the emitted event.  The result records,
in order, the outcome of every handler invocation (each handler in the
list is invoked exactly once), together with the exception `emit` itself
propagates — the `try`/`except` around each invocation means this is
always `none`. -/
def emit {α : Type} (handlers : List (α → HandlerOutcome)) (data : α) :
    List HandlerOutcome × Option String :=
  match handlers with
  | [] => ([], none)
  | h :: rest =>
      -- try: handler(event, data) … except: log the error, keep going
      let r := h data
      let (rs, e) := emit rest data
      (r :: rs, e)

/-! ## `src/src/modes/smart_chat_mode.py` — fluency scoring

Python floats are modelled as exact rationals; on the concrete inputs of
the property the float computation prints the same three-decimal values
the exact computation produces. -/

/-- `score_mapping` inside `_calculate_fluency_score`
(src/src/modes/smart_chat_mode.py lines 977-984). -/
def score_mapping : String → Option ℚ
  | "poor" => some (2/10) | "low" => some (2/10)
  | "fair" => some (4/10) | "basic" => some (4/10)
  | "good" => some (7/10) | "medium" => some (6/10)
  | "excellent" => some 1 | "high" => some (9/10) | "advanced" => some 1
  | "limited" => some (3/10) | "adequate" => some (5/10)
  | "varied" => some (8/10) | "sophisticated" => some 1
  | "unclear" => some (2/10) | "clear" => some (7/10)
  | "very_clear" => some 1
  | _ => none

/-- Python `round(x, 3)`: nearest multiple of 1/1000 (round-half-to-even
at ties; on the property's inputs no tie arises, so the tie-breaking rule
is inert). -/
def pyRound3 (q : ℚ) : ℚ := (round (q * 1000) : ℚ) / 1000

/-- `_calculate_fluency_score` (src/src/modes/smart_chat_mode.py lines
971-998): read the three indicators with defaults `'fair'`/`'adequate'`/
`'clear'`, map each through `score_mapping` with default `0.5`, combine
as `0.4·flow + 0.3·choice + 0.3·coherence`, round to three decimals. -/
def calculate_fluency_score
    (natural_flow word_choice coherence : Option String) : ℚ :=
  let flow_score := (score_mapping (natural_flow.getD "fair")).getD (5/10)
  let choice_score := (score_mapping (word_choice.getD "adequate")).getD (5/10)
  let coherence_score := (score_mapping (coherence.getD "clear")).getD (7/10)
  pyRound3 (flow_score * (4/10) + choice_score * (3/10) + coherence_score * (3/10))

/-- The rolling fluency update (src/src/modes/smart_chat_mode.py line
904): `fluency_score = current * 0.7 + new * 0.3`. -/
def rolling_fluency_update (current new : ℚ) : ℚ :=
  current * (7/10) + new * (3/10)

/-! ## Timestamps

The models stamp `datetime.now()` at construction and serialize it with
`datetime.isoformat()`, deserializing with `datetime.fromisoformat()`.
Both directions are modelled concretely: the printer produces the
canonical `YYYY-MM-DDTHH:MM:SS[.ffffff]` text (the fractional part is
omitted exactly when the microsecond field is zero, as CPython does), and
the parser inverts it. -/

/-- A `datetime.datetime` value at microsecond precision. -/
structure PyDateTime where
  year : Nat
  month : Nat
  day : Nat
  hour : Nat
  minute : Nat
  second : Nat
  microsecond : Nat
  deriving DecidableEq, Repr

/-- Field bounds under which the fixed-width rendering is faithful; every
value `datetime.now()` can produce satisfies them. -/
def PyDateTime.wf (d : PyDateTime) : Bool :=
  decide (d.year < 10000) && decide (d.month < 100) && decide (d.day < 100) &&
  decide (d.hour < 100) && decide (d.minute < 100) && decide (d.second < 100) &&
  decide (d.microsecond < 1000000)

/-- The ASCII digit for `n < 10`. -/
def digitChar (n : Nat) : Char := Char.ofNat (48 + n)

/-- Two-digit zero-padded rendering (`%02d`), faithful for `n < 100`. -/
def pad2 (n : Nat) : List Char := [digitChar (n / 10), digitChar (n % 10)]

/-- Four-digit zero-padded rendering (`%04d`), faithful for `n < 10000`. -/
def pad4 (n : Nat) : List Char :=
  [digitChar (n / 1000), digitChar (n / 100 % 10), digitChar (n / 10 % 10), digitChar (n % 10)]

/-- Six-digit zero-padded rendering (`%06d`), faithful for `n < 1000000`. -/
def pad6 (n : Nat) : List Char :=
  [digitChar (n / 100000), digitChar (n / 10000 % 10), digitChar (n / 1000 % 10),
   digitChar (n / 100 % 10), digitChar (n / 10 % 10), digitChar (n % 10)]

/-- The `.ffffff` tail, present iff the microsecond field is non-zero. -/
def microTail (us : Nat) : List Char :=
  if us = 0 then [] else '.' :: pad6 us

/-- `datetime.isoformat()`. -/
def PyDateTime.isoformat (d : PyDateTime) : String :=
  ⟨pad4 d.year ++ '-' :: (pad2 d.month ++ '-' :: (pad2 d.day ++ 'T' ::
    (pad2 d.hour ++ ':' :: (pad2 d.minute ++ ':' ::
      (pad2 d.second ++ microTail d.microsecond)))))⟩

/-- Numeric value of an ASCII digit character. -/
def digitVal (c : Char) : Option Nat :=
  if 48 ≤ c.toNat ∧ c.toNat ≤ 57 then some (c.toNat - 48) else none

/-- Read exactly two digits. -/
def read2 : List Char → Option (Nat × List Char)
  | a :: b :: rest =>
    match digitVal a, digitVal b with
    | some x, some y => some (10 * x + y, rest)
    | _, _ => none
  | _ => none

/-- Read exactly four digits. -/
def read4 : List Char → Option (Nat × List Char)
  | a :: b :: c :: d :: rest =>
    match digitVal a, digitVal b, digitVal c, digitVal d with
    | some x, some y, some z, some w => some (1000 * x + 100 * y + 10 * z + w, rest)
    | _, _, _, _ => none
  | _ => none

/-- Read exactly six digits. -/
def read6 : List Char → Option (Nat × List Char)
  | a :: b :: c :: d :: e :: f :: rest =>
    match digitVal a, digitVal b, digitVal c, digitVal d, digitVal e, digitVal f with
    | some u, some v, some w, some x, some y, some z =>
        some (100000 * u + 10000 * v + 1000 * w + 100 * x + 10 * y + z, rest)
    | _, _, _, _, _, _ => none
  | _ => none

/-- Require one specific character. -/
def expectCh (c : Char) : List Char → Option (List Char)
  | x :: rest => if x = c then some rest else none
  | [] => none

/-- `datetime.fromisoformat` on the canonical forms `isoformat` emits. -/
def fromIsoList (cs : List Char) : Option PyDateTime :=
  match read4 cs with
  | none => none
  | some (y, cs) =>
  match expectCh '-' cs with
  | none => none
  | some cs =>
  match read2 cs with
  | none => none
  | some (mo, cs) =>
  match expectCh '-' cs with
  | none => none
  | some cs =>
  match read2 cs with
  | none => none
  | some (da, cs) =>
  match expectCh 'T' cs with
  | none => none
  | some cs =>
  match read2 cs with
  | none => none
  | some (h, cs) =>
  match expectCh ':' cs with
  | none => none
  | some cs =>
  match read2 cs with
  | none => none
  | some (mi, cs) =>
  match expectCh ':' cs with
  | none => none
  | some cs =>
  match read2 cs with
  | none => none
  | some (se, cs) =>
  match cs with
  | [] => some ⟨y, mo, da, h, mi, se, 0⟩
  | cs =>
    match expectCh '.' cs with
    | none => none
    | some cs =>
    match read6 cs with
    | some (us, []) => some ⟨y, mo, da, h, mi, se, us⟩
    | _ => none

/-- `datetime.fromisoformat`. -/
def datetime_fromisoformat (s : String) : Option PyDateTime :=
  fromIsoList s.data

theorem digitVal_digitChar (n : Nat) (h : n < 10) : digitVal (digitChar n) = some n := by
  interval_cases n <;> decide

theorem read2_pad2 (n : Nat) (rest : List Char) (h : n < 100) :
    read2 (pad2 n ++ rest) = some (n, rest) := by
  have h1 : n / 10 < 10 := by omega
  have h2 : n % 10 < 10 := by omega
  simp [pad2, read2, digitVal_digitChar _ h1, digitVal_digitChar _ h2]
  omega

theorem read4_pad4 (n : Nat) (rest : List Char) (h : n < 10000) :
    read4 (pad4 n ++ rest) = some (n, rest) := by
  have h1 : n / 1000 < 10 := by omega
  have h2 : n / 100 % 10 < 10 := by omega
  have h3 : n / 10 % 10 < 10 := by omega
  have h4 : n % 10 < 10 := by omega
  simp [pad4, read4, digitVal_digitChar _ h1, digitVal_digitChar _ h2,
        digitVal_digitChar _ h3, digitVal_digitChar _ h4]
  omega

theorem read6_pad6 (n : Nat) (rest : List Char) (h : n < 1000000) :
    read6 (pad6 n ++ rest) = some (n, rest) := by
  have h1 : n / 100000 < 10 := by omega
  have h2 : n / 10000 % 10 < 10 := by omega
  have h3 : n / 1000 % 10 < 10 := by omega
  have h4 : n / 100 % 10 < 10 := by omega
  have h5 : n / 10 % 10 < 10 := by omega
  have h6 : n % 10 < 10 := by omega
  simp [pad6, read6, digitVal_digitChar _ h1, digitVal_digitChar _ h2,
        digitVal_digitChar _ h3, digitVal_digitChar _ h4,
        digitVal_digitChar _ h5, digitVal_digitChar _ h6]
  omega

theorem read2_pad2_nil (n : Nat) (h : n < 100) : read2 (pad2 n) = some (n, []) := by
  simpa using read2_pad2 n [] h

theorem read6_pad6_nil (n : Nat) (h : n < 1000000) : read6 (pad6 n) = some (n, []) := by
  simpa using read6_pad6 n [] h

/-- The ISO round-trip: parsing the printed form recovers the value. -/
theorem datetime_roundtrip (d : PyDateTime) (h : d.wf = true) :
    datetime_fromisoformat d.isoformat = some d := by
  obtain ⟨y, mo, da, hh, mi, se, us⟩ := d
  simp only [PyDateTime.wf, Bool.and_eq_true, decide_eq_true_eq] at h
  obtain ⟨⟨⟨⟨⟨⟨h1, h2⟩, h3⟩, h4⟩, h5⟩, h6⟩, h7⟩ := h
  simp only [PyDateTime.isoformat, datetime_fromisoformat]
  by_cases hz : us = 0
  · subst hz
    simp [fromIsoList, microTail, expectCh,
          read4_pad4 _ _ h1, read2_pad2 _ _ h2, read2_pad2 _ _ h3,
          read2_pad2 _ _ h4, read2_pad2 _ _ h5, read2_pad2_nil _ h6]
  · simp [fromIsoList, microTail, hz, expectCh,
          read4_pad4 _ _ h1, read2_pad2 _ _ h2, read2_pad2 _ _ h3,
          read2_pad2 _ _ h4, read2_pad2 _ _ h5, read2_pad2 _ _ h6,
          read6_pad6_nil _ h7]

/-- The printed form is never the empty string (needed because
`Session.from_dict` tests the end-time entry for Python truthiness). -/
theorem isoformat_ne_empty (d : PyDateTime) : d.isoformat ≠ "" := by
  obtain ⟨y, mo, da, hh, mi, se, us⟩ := d
  simp [PyDateTime.isoformat, pad4, String.ext_iff]

/-! ## `src/models/message.py` — `Message` -/

/-- `MessageType` (src/models/message.py lines 10-16). -/
inductive MessageType where
  | user
  | assistant
  | system
  | error
  | translation
  deriving DecidableEq, Repr

/-- The `.value` string of each `MessageType` member. -/
def MessageType.value : MessageType → String
  | .user => "user"
  | .assistant => "assistant"
  | .system => "system"
  | .error => "error"
  | .translation => "translation"

/-- Python `MessageType(value)`: look the member up by value, `none`
modelling the `ValueError` raised when no member matches. -/
def messageTypeFromValue (s : String) : Option MessageType :=
  if s = "user" then some .user
  else if s = "assistant" then some .assistant
  else if s = "system" then some .system
  else if s = "error" then some .error
  else if s = "translation" then some .translation
  else none

/-- `MessageStatus` (src/models/message.py lines 19-24). -/
inductive MessageStatus where
  | pending
  | sent
  | delivered
  | error
  deriving DecidableEq, Repr

/-- The `.value` string of each `MessageStatus` member. -/
def MessageStatus.value : MessageStatus → String
  | .pending => "pending"
  | .sent => "sent"
  | .delivered => "delivered"
  | .error => "error"

/-- Python `MessageStatus(value)`. -/
def messageStatusFromValue (s : String) : Option MessageStatus :=
  if s = "pending" then some .pending
  else if s = "sent" then some .sent
  else if s = "delivered" then some .delivered
  else if s = "error" then some .error
  else none

/-- The free-form metadata map carried by messages and sessions; its
entries pass through serialization untouched. -/
abbrev Metadata := List (String × String)

/-- `Message` (src/models/message.py lines 27-41): after
`__post_init__`, timestamp and metadata are always populated, so the
fields are total here. -/
structure Message where
  content : String
  message_type : MessageType
  timestamp : PyDateTime
  status : MessageStatus
  metadata : Metadata
  deriving DecidableEq, Repr

/-- The dictionary emitted by `Message.to_dict` (lines 63-71): fixed key
set, enum values as their literal strings, timestamp in ISO text. -/
structure MessageDict where
  content : String
  message_type : String
  timestamp : String
  status : String
  metadata : Metadata
  deriving DecidableEq, Repr

/-- `Message.to_dict` (src/models/message.py lines 63-71). -/
def Message.to_dict (m : Message) : MessageDict :=
  { content := m.content
    message_type := m.message_type.value
    timestamp := m.timestamp.isoformat
    status := m.status.value
    metadata := m.metadata }

/-- `Message.from_dict` (src/models/message.py lines 73-82); `none`
models the `ValueError` the enum/`fromisoformat` lookups raise on
malformed input. -/
def Message.from_dict (d : MessageDict) : Option Message :=
  match messageTypeFromValue d.message_type,
        datetime_fromisoformat d.timestamp,
        messageStatusFromValue d.status with
  | some t, some ts, some st =>
      some { content := d.content, message_type := t, timestamp := ts,
             status := st, metadata := d.metadata }
  | _, _, _ => none

/-! ## `src/models/translation.py` — `Translation` -/

/-- `TranslationStatus` (src/models/translation.py lines 10-15). -/
inductive TranslationStatus where
  | pending
  | in_progress
  | completed
  | failed
  deriving DecidableEq, Repr

/-- The `.value` string of each `TranslationStatus` member. -/
def TranslationStatus.value : TranslationStatus → String
  | .pending => "pending"
  | .in_progress => "in_progress"
  | .completed => "completed"
  | .failed => "failed"

/-- Python `TranslationStatus(value)`. -/
def translationStatusFromValue (s : String) : Option TranslationStatus :=
  if s = "pending" then some .pending
  else if s = "in_progress" then some .in_progress
  else if s = "completed" then some .completed
  else if s = "failed" then some .failed
  else none

/-- `Translation` (src/models/translation.py lines 18-32). -/
structure Translation where
  original_text : String
  translated_text : Option String
  source_language : String
  target_language : String
  status : TranslationStatus
  model_used : Option String
  timestamp : PyDateTime
  error_message : Option String
  deriving DecidableEq, Repr

/-- `Translation.mark_completed` (src/models/translation.py lines 49-54):
set the translated text and the completed status; record the model only
when the argument is truthy (a non-empty string). -/
def Translation.mark_completed (t : Translation)
    (translated_text : String) (model_used : Option String) : Translation :=
  { t with translated_text := some translated_text,
           status := .completed,
           model_used := match model_used with
             | some m => if m = "" then t.model_used else some m
             | none => t.model_used }

/-- `Translation.mark_failed` (src/models/translation.py lines 56-59). -/
def Translation.mark_failed (t : Translation) (error_message : String) : Translation :=
  { t with status := .failed, error_message := some error_message }

/-- The dictionary emitted by `Translation.to_dict` (lines 61-72). -/
structure TranslationDict where
  original_text : String
  translated_text : Option String
  source_language : String
  target_language : String
  status : String
  model_used : Option String
  timestamp : String
  error_message : Option String
  deriving DecidableEq, Repr

/-- `Translation.to_dict` (src/models/translation.py lines 61-72). -/
def Translation.to_dict (t : Translation) : TranslationDict :=
  { original_text := t.original_text
    translated_text := t.translated_text
    source_language := t.source_language
    target_language := t.target_language
    status := t.status.value
    model_used := t.model_used
    timestamp := t.timestamp.isoformat
    error_message := t.error_message }

/-- `Translation.from_dict` (src/models/translation.py lines 74-86). -/
def Translation.from_dict (d : TranslationDict) : Option Translation :=
  match translationStatusFromValue d.status, datetime_fromisoformat d.timestamp with
  | some st, some ts =>
      some { original_text := d.original_text
             translated_text := d.translated_text
             source_language := d.source_language
             target_language := d.target_language
             status := st
             model_used := d.model_used
             timestamp := ts
             error_message := d.error_message }
  | _, _ => none

/-! ## `src/models/session.py` — `Session` -/

/-- `Session` (src/models/session.py lines 11-23). -/
structure Session where
  session_id : String
  start_time : PyDateTime
  end_time : Option PyDateTime
  messages : List Message
  translations : List Translation
  metadata : Metadata
  deriving DecidableEq, Repr

/-- The dictionary emitted by `Session.to_dict` (lines 71-80). -/
structure SessionDict where
  session_id : String
  start_time : String
  end_time : Option String
  messages : List MessageDict
  translations : List TranslationDict
  metadata : Metadata
  deriving DecidableEq, Repr

/-- `Session.to_dict` (src/models/session.py lines 71-80). -/
def Session.to_dict (s : Session) : SessionDict :=
  { session_id := s.session_id
    start_time := s.start_time.isoformat
    end_time := s.end_time.map PyDateTime.isoformat
    messages := s.messages.map Message.to_dict
    translations := s.translations.map Translation.to_dict
    metadata := s.metadata }

/-- `Session.from_dict` (src/models/session.py lines 82-95).  The code
tests `data['end_time']` for truthiness, so an absent or empty entry
yields no end time; messages and translations are rebuilt elementwise,
any elementwise `ValueError` propagating. -/
def Session.from_dict (d : SessionDict) : Option Session :=
  match datetime_fromisoformat d.start_time with
  | none => none
  | some st =>
  match (match d.end_time with
         | none => some none
         | some s => if s = "" then some none
                     else (datetime_fromisoformat s).map some : Option (Option PyDateTime)) with
  | none => none
  | some et =>
  match d.messages.mapM Message.from_dict with
  | none => none
  | some msgs =>
  match d.translations.mapM Translation.from_dict with
  | none => none
  | some trs =>
      some { session_id := d.session_id, start_time := st, end_time := et,
             messages := msgs, translations := trs, metadata := d.metadata }

/-- All timestamps inside a session satisfy the rendering bounds. -/
def Session.wf (s : Session) : Bool :=
  s.start_time.wf &&
  (s.end_time.map PyDateTime.wf).getD true &&
  s.messages.all (fun m => m.timestamp.wf) &&
  s.translations.all (fun t => t.timestamp.wf)

theorem message_roundtrip (m : Message) (h : m.timestamp.wf = true) :
    Message.from_dict (Message.to_dict m) = some m := by
  obtain ⟨c, t, ts, st, md⟩ := m
  have hts := datetime_roundtrip ts h
  cases t <;> cases st <;>
    simp [Message.to_dict, Message.from_dict, MessageType.value, MessageStatus.value,
          messageTypeFromValue, messageStatusFromValue, hts]

theorem translation_roundtrip (t : Translation) (h : t.timestamp.wf = true) :
    Translation.from_dict (Translation.to_dict t) = some t := by
  obtain ⟨o, tt, sl, tl, st, mu, ts, em⟩ := t
  have hts := datetime_roundtrip ts h
  cases st <;>
    simp [Translation.to_dict, Translation.from_dict, TranslationStatus.value,
          translationStatusFromValue, hts]

theorem mapM_of_roundtrip {α β : Type} (f : α → β) (g : β → Option α) (l : List α)
    (h : ∀ a ∈ l, g (f a) = some a) : (l.map f).mapM g = some l := by
  induction l with
  | nil => rfl
  | cons a tl ih =>
      simp only [List.map_cons, List.mapM_cons, h a (by simp),
                 ih (fun x hx => h x (by simp [hx])), Option.pure_def, Option.bind_some]
      rfl

theorem session_roundtrip (s : Session) (h : s.wf = true) :
    Session.from_dict (Session.to_dict s) = some s := by
  obtain ⟨sid, st, et, msgs, trs, md⟩ := s
  simp only [Session.wf, Bool.and_eq_true, List.all_eq_true] at h
  obtain ⟨⟨⟨h1, h2⟩, h3⟩, h4⟩ := h
  have hmsgs : (msgs.map Message.to_dict).mapM Message.from_dict = some msgs :=
    mapM_of_roundtrip _ _ _ (fun m hm => message_roundtrip m (h3 m hm))
  have htrs : (trs.map Translation.to_dict).mapM Translation.from_dict = some trs :=
    mapM_of_roundtrip _ _ _ (fun t ht => translation_roundtrip t (h4 t ht))
  simp only [List.mapM] at hmsgs htrs
  cases et with
  | none =>
      simp [Session.to_dict, Session.from_dict, datetime_roundtrip st h1, hmsgs, htrs]
  | some e =>
      have he : e.wf = true := by simpa using h2
      simp [Session.to_dict, Session.from_dict, datetime_roundtrip st h1,
            datetime_roundtrip e he, isoformat_ne_empty e, hmsgs, htrs]

/-! ## `src/services/ollama_service.py` — `OllamaService`

The service's HTTP layer is modelled by an explicit outcome for each
wire-level interaction; the exceptions `_make_request` raises become the
error side of an `Except`.  Event emission only feeds logging/UI and is
not part of any claim, so it is omitted; the mutable
`translation_timeouts` list shared with `AppConfig.MODEL_CONFIG` is
threaded as explicit state. -/

/-- The exceptions `_make_request` can raise: `OllamaTimeoutError` and
`OllamaConnectionError` (src/core/exceptions.py lines 16-23). -/
inductive OllamaExn where
  | timeoutErr
  | connectionErr
  deriving DecidableEq, Repr

/-- Observable outcome of one `requests.post` to `/api/generate`: an HTTP
reply (status code plus the extracted `response` JSON field, already
defaulted to `""` by `result.get('response', '')`), a timeout, or a
connection failure. -/
inductive HttpOutcome where
  | response (status_code : Nat) (response_field : String)
  | timeout
  | connectionError
  deriving DecidableEq, Repr

/-- `_make_request` (src/services/ollama_service.py lines 163-187):
status 200 returns the trimmed response field; any other status logs and
returns the empty string; a timeout raises `OllamaTimeoutError`; a
connection failure raises `OllamaConnectionError`. -/
def make_request (o : HttpOutcome) : Except OllamaExn String :=
  match o with
  | .response status_code response_field =>
      if status_code = 200 then .ok (pyStrip response_field)
      else .ok ""
  | .timeout => .error .timeoutErr
  | .connectionError => .error .connectionErr

/-- The inner loop of `_select_best_model`: the first available model
whose lowercased name contains the lowercased preference substring. -/
def findModelForPref (available : List String) (pref : String) : Option String :=
  available.find? (fun m => strIn (strLower pref) (strLower m))

/-- The outer loop of `_select_best_model`: walk the preference order,
returning the first hit. -/
def selectPreferred (available : List String) : List String → Option String
  | [] => none
  | p :: ps =>
      match findModelForPref available p with
      | some m => some m
      | none => selectPreferred available ps

/-- `_select_best_model` (src/services/ollama_service.py lines 108-127),
as the `default_model` it leaves behind: `none` (an early return, leaving
the field unset) when no models are available; otherwise the first
preference-order match, falling back to the first listed model. -/
def select_best_model (available preferred : List String) : Option String :=
  if available.isEmpty then none
  else
    match selectPreferred available preferred with
    | some m => some m
    | none => available.head?

/-- The exceptions raised inside `generate_response`'s `try` block:
`ModelNotFoundError` when no model is selected, and whatever
`_make_request` raised. -/
inductive GenExn where
  | modelNotFound
  | ollamaTimeout
  | ollamaConnection
  deriving DecidableEq, Repr

/-- The `try` block of `generate_response` (src/services/ollama_service.py
lines 197-216): raise `ModelNotFoundError` when no model is available,
otherwise perform the request (propagating its exceptions) and substitute
a canned apology for an empty response. -/
def generate_response_try (default_model : Option String) (http : HttpOutcome) :
    Except GenExn String :=
  match default_model with
  | none => .error .modelNotFound
  | some _ =>
      match make_request http with
      | .error .timeoutErr => .error .ollamaTimeout
      | .error .connectionErr => .error .ollamaConnection
      | .ok response =>
          if response ≠ "" then .ok response
          else .ok "Sorry, I couldn't generate a response. Please try again."

/-- `generate_response` (src/services/ollama_service.py lines 189-227),
called without an explicit model (as `ChatService` does), so the
effective model is `default_model`.  Invalid input raises `ValueError`
(the `Except.error` side); the `except` clauses convert every exception
from the `try` block into a user-facing apology string, the timeout
getting its dedicated wording. -/
def generate_response (default_model : Option String) (http : HttpOutcome)
    (message : String) : Except Unit String :=
  if validate_message message = false then .error ()
  else
    .ok (match generate_response_try default_model http with
      | .ok s => s
      | .error .ollamaTimeout => "I'm taking too long to respond. Please try a shorter message."
      | .error _ => "Sorry, there was an error processing your message.")

/-- One pass of the `for available in self.available_models` loop inside
`_get_translation_models`: append every available model whose lowercased
name contains `name` and which is not yet listed. -/
def addPreferred (models : List String) (name : String) (available : List String) :
    List String :=
  available.foldl
    (fun acc a => if strIn name (strLower a) && !(acc.contains a) then acc ++ [a] else acc)
    models

/-- `_get_translation_models` (src/services/ollama_service.py lines
282-298): default model first, then available models matching "mistral",
then "llama2" (deduplicated), with a literal `["mistral"]` fallback when
the result would be empty. -/
def get_translation_models (default_model : Option String) (available : List String) :
    List String :=
  let models : List String :=
    match default_model with
    | some m => [m]
    | none => []
  let models := addPreferred models "mistral" available
  let models := addPreferred models "llama2" available
  if models.isEmpty then ["mistral"] else models

/-- The `while len(timeouts) < len(models_to_try)` loop of `translate_text`
(src/services/ollama_service.py lines 251-252), appending `timeouts[-1] + 15`
until the list is long enough.  `none` models the `IndexError` Python
raises on `timeouts[-1]` when the list is empty (unreachable under the
shipped configuration). -/
def extend_timeouts (timeouts : List Nat) (n : Nat) : Option (List Nat) :=
  if h : timeouts.length < n then
    match timeouts.getLast? with
    | some last => extend_timeouts (timeouts ++ [last + 15]) n
    | none => none
  else some timeouts
termination_by n - timeouts.length
decreasing_by simp [List.length_append]; omega

/-- Did one translation attempt fail in the sense of the fallback ladder:
the request raised, or returned an empty or unchanged text? -/
def attempt_fails (text : String) (r : Except OllamaExn String) : Bool :=
  match r with
  | .error _ => true
  | .ok s => s = "" || s = text

/-- The `for attempt, (model, timeout) in enumerate(zip(...))` loop of
`translate_text` (src/services/ollama_service.py lines 256-273): accept
the first non-empty result different from the input via `mark_completed`,
skip any exception or empty/unchanged result, and `mark_failed` after
exhaustion (lines 275-280). -/
def translate_attempts (text : String) (tr : Translation) :
    List ((String × Nat) × Except OllamaExn String) → Translation
  | [] => tr.mark_failed "Translation failed with all models"
  | ((model, _timeout), r) :: rest =>
      match r with
      | .ok translated_text =>
          if translated_text ≠ "" ∧ translated_text ≠ text then
            tr.mark_completed translated_text (some model)
          else
            translate_attempts text tr rest
      | .error _ => translate_attempts text tr rest

/-- The `Translation(...)` constructed at the top of `translate_text`
(src/services/ollama_service.py lines 231-236): pending, nothing filled
in yet. -/
def pending_translation (text source_language target_language : String)
    (now : PyDateTime) : Translation :=
  { original_text := text, translated_text := none,
    source_language := source_language, target_language := target_language,
    status := .pending, model_used := none, timestamp := now,
    error_message := none }

/-- `translate_text` (src/services/ollama_service.py lines 229-280).
`attempts` is the positional oracle of `_make_request` outcomes for the
successive `(model, timeout)` pairs; `g_timeouts` is the current contents
of the globally shared `translation_timeouts` list, whose (possibly
grown) contents are returned alongside the `Translation` because the
`while` loop mutates the shared list in place.  The overall `none` models
an uncaught exception, which only the empty-timeouts `IndexError` can
produce. -/
def translate_text (text source_language target_language : String)
    (now : PyDateTime) (default_model : Option String) (available : List String)
    (attempts : List (Except OllamaExn String)) (g_timeouts : List Nat) :
    Option (Translation × List Nat) :=
  let translation := pending_translation text source_language target_language now
  if validate_message text = false then
    some (translation.mark_failed "Invalid text content", g_timeouts)
  else
    let translation := { translation with status := .in_progress }
    let models_to_try := get_translation_models default_model available
    match extend_timeouts g_timeouts models_to_try.length with
    | none => none
    | some timeouts =>
        some (translate_attempts text translation ((models_to_try.zip timeouts).zip attempts),
              timeouts)

/-! ## `src/services/chat_service.py` — `ChatService.send_message` -/

/-- The observable state `send_message` touches: the session's message
list and the app-state entries it sets/increments. -/
structure ChatState where
  messages : List Message
  messages_sent : Nat
  errors_count : Nat
  last_message : Option String
  last_response : Option String
  deriving DecidableEq, Repr

/-- The user message `send_message` constructs (lines 41-45). -/
def user_message_of (content : String) (now : PyDateTime) : Message :=
  { content := content, message_type := .user, timestamp := now,
    status := .sent, metadata := [] }

/-- `ChatService.send_message` (src/services/chat_service.py lines
35-104): reject invalid text with `ValueError` (the `Except.error` side);
otherwise append the user message, bump the sent counter, call
`generate_response`, and either append/return an assistant message or —
only if `generate_response` itself raised — append/return an error-tagged
message and bump the error counter.  The error-branch content is the
`f"Error processing message: {e}"` text. -/
def send_message (st : ChatState) (default_model : Option String)
    (http : HttpOutcome) (now : PyDateTime) (message_content : String) :
    Except Unit (Message × ChatState) :=
  if validate_message message_content = false then .error ()
  else
    let user_message := user_message_of message_content now
    let st := { st with messages := st.messages ++ [user_message],
                        last_message := some message_content,
                        messages_sent := st.messages_sent + 1 }
    match generate_response default_model http message_content with
    | .ok response_content =>
        let assistant_message : Message :=
          { content := response_content, message_type := .assistant,
            timestamp := now, status := .delivered, metadata := [] }
        .ok (assistant_message,
             { st with messages := st.messages ++ [assistant_message],
                       last_response := some response_content })
    | .error _ =>
        let error_message : Message :=
          { content := "Error processing message: Invalid message content",
            message_type := .error, timestamp := now, status := .error,
            metadata := [] }
        .ok (error_message,
             { st with messages := st.messages ++ [error_message],
                       errors_count := st.errors_count + 1 })

/-! ## `src/src/modes/interactive_mode.py` — difficulty adaptation -/

/-- `DifficultyLevel` (src/src/modes/interactive_mode.py lines 5-8). -/
inductive DifficultyLevel where
  | beginner
  | intermediate
  | advanced
  deriving DecidableEq, Repr

/-- The slice of `InteractiveMode` state the difficulty machine reads and
writes: the difficulty plus the two streak counters inside
`user_performance`. -/
structure InteractiveState where
  difficulty : DifficultyLevel
  consecutive_poor : Nat
  consecutive_excellent : Nat
  deriving DecidableEq, Repr

/-- `_assess_response_quality` (src/src/modes/interactive_mode.py lines
506-524): `needs_help` exactly when confusion was detected, otherwise a
word-count/error classification.  Word count is Python `str.split()`. -/
def assess_response_quality (response : String) (has_errors : Bool)
    (user_confused : Bool) : String :=
  if user_confused then "needs_help"
  else
    let word_count := (pySplit response).length
    if word_count < 3 then "too_short"
    else if word_count < 8 && !has_errors then "good_short"
    else if word_count ≥ 8 && !has_errors then "excellent"
    else if has_errors && word_count ≥ 5 then "good_with_errors"
    else "needs_improvement"

/-- The slice of the feedback dict built by `_process_and_feedback`
(lines 214-224) that `_generate_adaptive_question` reads. -/
structure Feedback where
  quality : String
  user_confused : Bool
  deriving DecidableEq, Repr

/-- Build the feedback the mode itself produces: the quality is computed
by `_assess_response_quality` from the same confusion flag stored next to
it, so `quality = "needs_help"` and `user_confused` always co-occur. -/
def process_feedback (response : String) (has_errors : Bool)
    (user_confused : Bool) : Feedback :=
  { quality := assess_response_quality response has_errors user_confused,
    user_confused := user_confused }

/-- The state update performed by `_generate_adaptive_question`
(src/src/modes/interactive_mode.py lines 297-336): when the feedback
carries the confusion flag the function returns a simpler question
*before* any streak or difficulty logic runs; otherwise poor-quality
turns build the poor streak (two in a row step the difficulty down and
zero the poor streak), excellent turns build the excellent streak (three
in a row step the difficulty up and zero that streak), and any other
quality zeroes both streaks. -/
def generate_adaptive_question_update (st : InteractiveState) (fb : Feedback) :
    InteractiveState :=
  if fb.user_confused then st
  else if fb.quality = "too_short" ∨ fb.quality = "needs_improvement" ∨
          fb.quality = "needs_help" then
    let poor := st.consecutive_poor + 1
    if poor ≥ 2 then
      let d :=
        match st.difficulty with
        | .advanced => DifficultyLevel.intermediate
        | .intermediate => DifficultyLevel.beginner
        | .beginner => DifficultyLevel.beginner
      { st with difficulty := d, consecutive_poor := 0 }
    else
      { st with consecutive_poor := poor }
  else if fb.quality = "excellent" then
    let exc := st.consecutive_excellent + 1
    let st := { st with consecutive_excellent := exc, consecutive_poor := 0 }
    if exc ≥ 3 then
      let d :=
        match st.difficulty with
        | .beginner => DifficultyLevel.intermediate
        | .intermediate => DifficultyLevel.advanced
        | .advanced => DifficultyLevel.advanced
      { st with difficulty := d, consecutive_excellent := 0 }
    else st
  else
    { st with consecutive_poor := 0, consecutive_excellent := 0 }

/-! ## Helper lemmas for the error memory -/

theorem lookup_nonneg (m : ErrorsMemory) (k : String) (r : ErrorRecord)
    (hm : m.nonneg) (h : m.lookup k = some r) : 0 ≤ r.veces := by
  induction m with
  | nil => simp [ErrorsMemory.lookup] at h
  | cons p t ih =>
      obtain ⟨k', r'⟩ := p
      simp only [ErrorsMemory.lookup] at h
      by_cases hk : k' = k
      · rw [if_pos hk] at h
        injection h with h
        subst h
        exact hm (k', r') (by simp)
      · rw [if_neg hk] at h
        exact ih (fun q hq => hm q (by simp [hq])) h

theorem setAt_nonneg (k : String) (r : ErrorRecord) (hr : 0 ≤ r.veces) :
    ∀ m : ErrorsMemory, m.nonneg → (m.setAt k r).nonneg := by
  intro m
  induction m with
  | nil => intro _ p hp; simp [ErrorsMemory.setAt] at hp
  | cons q t ih =>
      obtain ⟨k', r'⟩ := q
      intro hm p hp
      simp only [ErrorsMemory.setAt] at hp
      by_cases hk : k' = k
      · rw [if_pos hk] at hp
        rcases List.mem_cons.mp hp with rfl | hmem
        · exact hr
        · exact hm p (by simp [hmem])
      · rw [if_neg hk] at hp
        rcases List.mem_cons.mp hp with rfl | hmem
        · exact hm (k', r') (by simp)
        · exact ih (fun q hq => hm q (by simp [hq])) p hmem

theorem check_improvement_nonneg (text : String) :
    ∀ m : ErrorsMemory, m.nonneg → ((check_improvement m text).2).nonneg := by
  intro m
  induction m with
  | nil =>
      intro _ p hp
      simp [check_improvement] at hp
  | cons q t ih =>
      obtain ⟨k, r⟩ := q
      intro hm
      have ht := ih (fun p hp => hm p (by simp [hp]))
      by_cases hc : strLower text = k ∧ r.veces > 0
      · simp only [check_improvement, if_pos hc]
        intro p hp
        rcases List.mem_cons.mp hp with rfl | hmem
        · have := hc.2
          simp only []
          omega
        · exact hm p (by simp [hmem])
      · rcases he : check_improvement t text with ⟨b, t'⟩
        rw [he] at ht
        simp only [check_improvement, if_neg hc, he]
        intro p hp
        rcases List.mem_cons.mp hp with rfl | hmem
        · exact hm (k, r) (by simp)
        · exact ht p hmem

theorem register_error_nonneg (m : ErrorsMemory) (original correction now : String)
    (hm : m.nonneg) : (register_error m original correction now).nonneg := by
  unfold register_error
  rcases h0 : m.lookup (strLower correction) with _ | r0
  · have hm1 : (m ++ [(strLower correction,
        ({ veces := 0, ultima_fecha := none, originales := [] } : ErrorRecord))]).nonneg := by
      intro p hp
      rcases List.mem_append.mp hp with hmem | hmem
      · exact hm p hmem
      · simp only [List.mem_singleton] at hmem
        subst hmem
        simp
    simp only [h0]
    rcases h1 : (m ++ [(strLower correction,
        ({ veces := 0, ultima_fecha := none, originales := [] } : ErrorRecord))]).lookup
          (strLower correction) with _ | r
    · exact hm1
    · refine setAt_nonneg _ _ ?_ _ hm1
      have := lookup_nonneg _ _ _ hm1 h1
      show (0 : Int) ≤ r.veces + 1
      omega
  · simp only [h0]
    refine setAt_nonneg _ _ ?_ _ hm
    have := lookup_nonneg _ _ _ hm h0
    show (0 : Int) ≤ r0.veces + 1
    omega

/-! ## Claim C5 -/

/-- Errors memory after registering the correction "I am happy" three
times (distinct originals and timestamps, as the service would). -/
def c5_mem3 : ErrorsMemory :=
  register_error
    (register_error
      (register_error [] "I happy" "I am happy" "2024-01-01 10:00:00")
      "I is happy" "I am happy" "2024-01-01 10:05:00")
    "me happy" "I am happy" "2024-01-01 10:10:00"

/-- The same memory after three successful improvement checks: the count
is back to zero. -/
def c5_mem0 : ErrorsMemory :=
  (check_improvement
    ((check_improvement
      ((check_improvement c5_mem3 "I am happy").2) "I am happy").2) "I am happy").2

/-- C5: starting from an empty error memory, registering an error for
correction "I am happy" three times yields a record with count 3; a
`check_improvement("I am happy")` call then decrements the count to 2 and
returns `true`; once the count has reached 0, a further call returns
`false` and leaves the memory unchanged; and both operations preserve
non-negativity of every count. -/
theorem C5_error_memory_improvement :
    ((c5_mem3.lookup "i am happy").map ErrorRecord.veces = some 3) ∧
    ((check_improvement c5_mem3 "I am happy").1 = true) ∧
    ((((check_improvement c5_mem3 "I am happy").2).lookup "i am happy").map
        ErrorRecord.veces = some 2) ∧
    ((c5_mem0.lookup "i am happy").map ErrorRecord.veces = some 0) ∧
    (check_improvement c5_mem0 "I am happy" = (false, c5_mem0)) ∧
    (∀ (m : ErrorsMemory) (text : String), m.nonneg →
       ((check_improvement m text).2).nonneg) ∧
    (∀ (m : ErrorsMemory) (original correction now : String), m.nonneg →
       (register_error m original correction now).nonneg) :=
  ⟨by decide, by decide, by decide, by decide, by decide,
   fun m text hm => check_improvement_nonneg text m hm,
   fun m original correction now hm => register_error_nonneg m original correction now hm⟩

/-- Witness for C5: the non-negativity preservation parts applied at
concrete memories. -/
theorem C5_error_memory_improvement_witness :
    ((check_improvement [("hola",
        ({ veces := 2, ultima_fecha := none, originales := ["ola"] } : ErrorRecord))]
        "Hola").2).nonneg ∧
    (register_error [] "orig" "Corr" "2024-01-01 00:00:00").nonneg :=
  ⟨C5_error_memory_improvement.2.2.2.2.2.1 _ "Hola"
     (by unfold ErrorsMemory.nonneg; decide),
   C5_error_memory_improvement.2.2.2.2.2.2 [] "orig" "Corr" "2024-01-01 00:00:00"
     (by unfold ErrorsMemory.nonneg; decide)⟩

/-! ## Claim C7 -/

/-- C7: with two handlers registered on one event kind, the first of
which raises, `emit` still invokes the second handler exactly once (the
outcome trace is exactly one entry per registered handler, in order) and
`emit` itself propagates no exception; in general every registered
handler is invoked exactly once per emission regardless of raised
exceptions. -/
theorem C7_event_bus_isolation :
    (∀ (α : Type) (data : α) (msg : String) (h2 : α → HandlerOutcome),
       emit [fun _ => HandlerOutcome.raised msg, h2] data
         = ([HandlerOutcome.raised msg, h2 data], none)) ∧
    (∀ (α : Type) (handlers : List (α → HandlerOutcome)) (data : α),
       emit handlers data = (handlers.map (fun h => h data), none)) := by
  have hgen : ∀ (α : Type) (handlers : List (α → HandlerOutcome)) (data : α),
      emit handlers data = (handlers.map (fun h => h data), none) := by
    intro α handlers data
    induction handlers with
    | nil => rfl
    | cons h t ih => simp [emit, ih]
  exact ⟨fun α data msg h2 => hgen α [fun _ => HandlerOutcome.raised msg, h2] data, hgen⟩

/-! ## Claim C9 -/

/-- C9: the fluency score for indicators
`{natural_flow: "good", word_choice: "varied", coherence: "very_clear"}`
is `0.4·0.7 + 0.3·0.8 + 0.3·1.0 = 0.82` after rounding to three decimals,
and the rolling update from a previous score of `0.5` with a new score of
`0.82` is `0.7·0.5 + 0.3·0.82 = 0.596`. -/
theorem C9_fluency_score_computation :
    calculate_fluency_score (some "good") (some "varied") (some "very_clear") = 82 / 100 ∧
    rolling_fluency_update (1 / 2) (82 / 100) = 596 / 1000 := by
  constructor
  · show pyRound3 _ = _
    rw [show (score_mapping ((some "good").getD "fair")).getD (5/10) = 7/10 from rfl]
    rw [show (score_mapping ((some "varied").getD "adequate")).getD (5/10) = 8/10 from rfl]
    rw [show (score_mapping ((some "very_clear").getD "clear")).getD (7/10) = 1 from rfl]
    rw [pyRound3, round_eq]
    norm_num
  · rw [rolling_fluency_update]
    norm_num

/-! ## Claim C4 (corrected) -/

/-- C4 counterexample: a non-200 HTTP response does *not* raise the named
connection error — `_make_request` logs it and returns the empty string
(`Except.ok ""`), so the claim's non-200 case fails on the code. -/
theorem C4_counterexample :
    make_request (HttpOutcome.response 500 "Internal Server Error") = Except.ok "" ∧
    make_request (HttpOutcome.response 500 "Internal Server Error")
      ≠ Except.error OllamaExn.connectionErr ∧
    make_request (HttpOutcome.response 500 "Internal Server Error")
      ≠ Except.error OllamaExn.timeoutErr := by
  refine ⟨rfl, ?_, ?_⟩ <;>
    · intro h
      rw [show make_request (HttpOutcome.response 500 "Internal Server Error")
            = Except.ok "" from rfl] at h
      exact Except.noConfusion h

/-- C4 as amended: a timeout raises the timeout error and a connection
failure raises the connection error, but a non-200 response is a soft
failure returning the empty string; a 200 response returns the stripped
response field. -/
theorem C4_request_error_translation :
    (make_request HttpOutcome.timeout = Except.error OllamaExn.timeoutErr) ∧
    (make_request HttpOutcome.connectionError = Except.error OllamaExn.connectionErr) ∧
    (∀ (status_code : Nat) (body : String), status_code ≠ 200 →
       make_request (HttpOutcome.response status_code body) = Except.ok "") ∧
    (∀ body : String,
       make_request (HttpOutcome.response 200 body) = Except.ok (pyStrip body)) := by
  refine ⟨rfl, rfl, ?_, fun body => rfl⟩
  intro status_code body h
  simp [make_request, h]

/-- Witness for the amended C4: the non-200 soft failure at status 404. -/
theorem C4_request_error_translation_witness :
    make_request (HttpOutcome.response 404 "not found") = Except.ok "" :=
  C4_request_error_translation.2.2.1 404 "not found" (by decide)

/-! ## Claim C8 (corrected) -/

/-- The feedback the mode produces for a confused two-word-or-shorter
generic reply: quality "needs_help" with the confusion flag set. -/
def c8_feedback : Feedback := process_feedback "um" false true

/-- C8 counterexample: a turn of quality "needs_help" always carries the
confusion flag (it is produced only when confusion is detected), and on a
confused turn `_generate_adaptive_question` returns a simpler question
*before* the streak/difficulty logic runs — so two consecutive
"needs_help" turns leave the difficulty at "intermediate" instead of
stepping it to "beginner" as the claim requires. -/
theorem C8_counterexample :
    c8_feedback.quality = "needs_help" ∧
    generate_adaptive_question_update
      (generate_adaptive_question_update
        { difficulty := .intermediate, consecutive_poor := 0, consecutive_excellent := 0 }
        c8_feedback)
      c8_feedback
      = { difficulty := DifficultyLevel.intermediate, consecutive_poor := 0,
          consecutive_excellent := 0 } ∧
    DifficultyLevel.intermediate ≠ DifficultyLevel.beginner := by
  refine ⟨rfl, rfl, by decide⟩

/-- C8 as amended: turns whose quality lies in {too_short,
needs_improvement} build the poor streak — two in a row from
"intermediate" step the difficulty to "beginner" and reset the poor
streak; "needs_help" turns (which always carry the confusion flag) bypass
the difficulty logic entirely, leaving state unchanged; from "beginner"
three consecutive "excellent" turns reach "intermediate" and three more
reach "advanced"; a turn in neither set (good_short, good_with_errors)
resets both streak counters. -/
theorem C8_difficulty_transitions :
    (∀ q1 q2 : String, q1 ∈ ["too_short", "needs_improvement"] →
       q2 ∈ ["too_short", "needs_improvement"] →
       generate_adaptive_question_update
         (generate_adaptive_question_update
           { difficulty := .intermediate, consecutive_poor := 0, consecutive_excellent := 0 }
           { quality := q1, user_confused := false })
         { quality := q2, user_confused := false }
         = { difficulty := DifficultyLevel.beginner, consecutive_poor := 0,
             consecutive_excellent := 0 }) ∧
    (generate_adaptive_question_update
       (generate_adaptive_question_update
         (generate_adaptive_question_update
           { difficulty := .beginner, consecutive_poor := 0, consecutive_excellent := 0 }
           { quality := "excellent", user_confused := false })
         { quality := "excellent", user_confused := false })
       { quality := "excellent", user_confused := false }
       = { difficulty := DifficultyLevel.intermediate, consecutive_poor := 0,
           consecutive_excellent := 0 }) ∧
    (generate_adaptive_question_update
       (generate_adaptive_question_update
         (generate_adaptive_question_update
           { difficulty := .intermediate, consecutive_poor := 0, consecutive_excellent := 0 }
           { quality := "excellent", user_confused := false })
         { quality := "excellent", user_confused := false })
       { quality := "excellent", user_confused := false }
       = { difficulty := DifficultyLevel.advanced, consecutive_poor := 0,
           consecutive_excellent := 0 }) ∧
    (∀ (st : InteractiveState) (q : String), q ∈ ["good_short", "good_with_errors"] →
       generate_adaptive_question_update st { quality := q, user_confused := false }
         = { difficulty := st.difficulty, consecutive_poor := 0,
             consecutive_excellent := 0 }) ∧
    (∀ (st : InteractiveState) (fb : Feedback), fb.user_confused = true →
       generate_adaptive_question_update st fb = st) ∧
    (∀ (response : String) (has_errors : Bool),
       (process_feedback response has_errors true).quality = "needs_help" ∧
       (process_feedback response has_errors true).user_confused = true) := by
  refine ⟨?_, by decide, by decide, ?_, ?_, ?_⟩
  · intro q1 q2 h1 h2
    simp only [List.mem_cons, List.mem_singleton, List.not_mem_nil, or_false] at h1 h2
    rcases h1 with rfl | rfl <;> rcases h2 with rfl | rfl <;> decide
  · intro st q hq
    obtain ⟨d, p, e⟩ := st
    simp only [List.mem_cons, List.mem_singleton, List.not_mem_nil, or_false] at hq
    rcases hq with rfl | rfl <;> simp [generate_adaptive_question_update]
  · intro st fb h
    simp [generate_adaptive_question_update, h]
  · intro response has_errors
    exact ⟨rfl, rfl⟩

/-- Witness for the amended C8: the streak-driven step-down applied at
concrete qualities, and the streak reset applied at a concrete state. -/
theorem C8_difficulty_transitions_witness :
    generate_adaptive_question_update
      (generate_adaptive_question_update
        { difficulty := .intermediate, consecutive_poor := 0, consecutive_excellent := 0 }
        { quality := "too_short", user_confused := false })
      { quality := "needs_improvement", user_confused := false }
      = { difficulty := DifficultyLevel.beginner, consecutive_poor := 0,
          consecutive_excellent := 0 } ∧
    generate_adaptive_question_update
      { difficulty := .advanced, consecutive_poor := 1, consecutive_excellent := 2 }
      { quality := "good_short", user_confused := false }
      = { difficulty := DifficultyLevel.advanced, consecutive_poor := 0,
          consecutive_excellent := 0 } ∧
    generate_adaptive_question_update
      { difficulty := .advanced, consecutive_poor := 1, consecutive_excellent := 2 }
      { quality := "needs_help", user_confused := true }
      = { difficulty := DifficultyLevel.advanced, consecutive_poor := 1,
          consecutive_excellent := 2 } :=
  ⟨C8_difficulty_transitions.1 "too_short" "needs_improvement" (by simp) (by simp),
   C8_difficulty_transitions.2.2.2.1
     { difficulty := .advanced, consecutive_poor := 1, consecutive_excellent := 2 }
     "good_short" (by simp),
   C8_difficulty_transitions.2.2.2.2.1
     { difficulty := .advanced, consecutive_poor := 1, consecutive_excellent := 2 }
     { quality := "needs_help", user_confused := true } rfl⟩

/-! ## Helper lemmas for model selection -/

theorem selectPreferred_eq_none (avail : List String) (ps : List String)
    (h : ∀ p ∈ ps, findModelForPref avail p = none) :
    selectPreferred avail ps = none := by
  induction ps with
  | nil => rfl
  | cons p t ih =>
      simp only [selectPreferred]
      rw [h p (by simp)]
      exact ih (fun q hq => h q (by simp [hq]))

theorem selectPreferred_first (avail ps1 : List String) (p : String) (ps2 : List String)
    (m : String) (h : ∀ q ∈ ps1, findModelForPref avail q = none)
    (hp : findModelForPref avail p = some m) :
    selectPreferred avail (ps1 ++ p :: ps2) = some m := by
  induction ps1 with
  | nil => simp [selectPreferred, hp]
  | cons q t ih =>
      simp only [List.cons_append, selectPreferred]
      rw [h q (by simp)]
      exact ih (fun r hr => h r (by simp [hr]))

/-! ## Claim C2 -/

/-- C2: default-model selection is the deterministic function
`select_best_model`; on the example list it picks `"mistral:latest"`; in
general, if `p` is the earliest preference in the default order matching
any available model, the first available model containing `p`
(case-insensitively) is selected; if no preference matches, the first
listed model is selected; on an empty list no default is set, and a
subsequent generation call fails with the `ModelNotFoundError` raised
inside `generate_response`, which its handler converts into the generic
apology reply. -/
theorem C2_model_selection_determinism :
    (select_best_model ["llama2:7b", "mistral:latest"] preferred_order
       = some "mistral:latest") ∧
    (∀ avail : List String, avail ≠ [] →
       (∀ p ∈ preferred_order, findModelForPref avail p = none) →
       select_best_model avail preferred_order = avail.head?) ∧
    (∀ (avail ps1 : List String) (p : String) (ps2 : List String) (m : String),
       preferred_order = ps1 ++ p :: ps2 →
       (∀ q ∈ ps1, findModelForPref avail q = none) →
       findModelForPref avail p = some m →
       select_best_model avail preferred_order = some m) ∧
    (select_best_model [] preferred_order = none) ∧
    (∀ http : HttpOutcome,
       generate_response_try none http = Except.error GenExn.modelNotFound) ∧
    (∀ (http : HttpOutcome) (message : String), validate_message message = true →
       generate_response none http message
         = Except.ok "Sorry, there was an error processing your message.") := by
  refine ⟨by decide, ?_, ?_, rfl, fun http => rfl, ?_⟩
  · intro avail hne hnone
    have hie : avail.isEmpty = false := by
      cases avail with
      | nil => exact absurd rfl hne
      | cons a t => rfl
    simp [select_best_model, hie, selectPreferred_eq_none avail preferred_order hnone]
  · intro avail ps1 p ps2 m hord hnone hp
    have hne : avail ≠ [] := by
      intro h
      subst h
      simp [findModelForPref] at hp
    have hie : avail.isEmpty = false := by
      cases avail with
      | nil => exact absurd rfl hne
      | cons a t => rfl
    rw [select_best_model, hord, if_neg (by simp [hie]),
        selectPreferred_first avail ps1 p ps2 m hnone hp]
  · intro http message hv
    simp [generate_response, hv, generate_response_try]

/-- Witness for C2: the general characterisations applied at concrete
model lists, and the empty-list generation failure at a concrete call. -/
theorem C2_model_selection_determinism_witness :
    select_best_model ["foo", "llama2:7b"] preferred_order = some "llama2:7b" ∧
    select_best_model ["foo", "bar"] preferred_order = some "foo" ∧
    generate_response none HttpOutcome.timeout "Hi"
      = Except.ok "Sorry, there was an error processing your message." := by
  refine ⟨?_, ?_, C2_model_selection_determinism.2.2.2.2.2 HttpOutcome.timeout "Hi" (by decide)⟩
  · exact C2_model_selection_determinism.2.2.1 ["foo", "llama2:7b"]
      ["mistral", "gemma", "llama3.1", "llama3"] "llama2" [] "llama2:7b"
      rfl (by decide) (by decide)
  · exact C2_model_selection_determinism.2.1 ["foo", "bar"] (by decide) (by decide)

/-! ## Claim C6 -/

/-- C6: for every `Message`, `Translation`, and `Session` (whose
timestamps lie in the rendering range `datetime.now()` produces),
`to_dict` followed by `from_dict` reproduces the value exactly — every
field, including full-precision timestamps, tags, metadata, and for
`Session` the complete message and translation sequences. -/
theorem C6_roundtrip_serialization :
    (∀ m : Message, m.timestamp.wf = true →
       Message.from_dict (Message.to_dict m) = some m) ∧
    (∀ t : Translation, t.timestamp.wf = true →
       Translation.from_dict (Translation.to_dict t) = some t) ∧
    (∀ s : Session, s.wf = true →
       Session.from_dict (Session.to_dict s) = some s) :=
  ⟨message_roundtrip, translation_roundtrip, session_roundtrip⟩

/-- A representative timestamp with microsecond precision. -/
def c6_time : PyDateTime :=
  { year := 2024, month := 6, day := 1, hour := 9, minute := 30, second := 15,
    microsecond := 123456 }

/-- A representative message. -/
def c6_message : Message :=
  { content := "Hi", message_type := .user, timestamp := c6_time,
    status := .sent, metadata := [("source", "test")] }

/-- A representative completed translation. -/
def c6_translation : Translation :=
  { original_text := "Hi", translated_text := some "Hola",
    source_language := "en", target_language := "es",
    status := .completed, model_used := some "mistral:latest",
    timestamp := c6_time, error_message := none }

/-- A representative session holding the message and the translation. -/
def c6_session : Session :=
  { session_id := "session_20240601_093015", start_time := c6_time,
    end_time := some { year := 2024, month := 6, day := 1, hour := 10, minute := 0,
                       second := 0, microsecond := 0 },
    messages := [c6_message], translations := [c6_translation],
    metadata := [("mode", "chat")] }

/-- Witness for C6: the round-trip at the concrete instances. -/
theorem C6_roundtrip_serialization_witness :
    Message.from_dict (Message.to_dict c6_message) = some c6_message ∧
    Translation.from_dict (Translation.to_dict c6_translation) = some c6_translation ∧
    Session.from_dict (Session.to_dict c6_session) = some c6_session :=
  ⟨C6_roundtrip_serialization.1 c6_message (by decide),
   C6_roundtrip_serialization.2.1 c6_translation (by decide),
   C6_roundtrip_serialization.2.2 c6_session (by decide)⟩

/-! ## Claim C3 (corrected) -/

/-- The three canned user-safe fallback strings `generate_response`
substitutes for failures (src/services/ollama_service.py lines 216, 222,
227). -/
def gen_fallback_strings : List String :=
  ["Sorry, I couldn't generate a response. Please try again.",
   "I'm taking too long to respond. Please try a shorter message.",
   "Sorry, there was an error processing your message."]

/-- The conditions under which the underlying generation step fails: no
model selected, a timeout, a connection failure, a non-200 reply, or a
200 reply whose response field strips to nothing. -/
def generation_step_fails (default_model : Option String) (http : HttpOutcome) : Bool :=
  match default_model with
  | none => true
  | some _ =>
      match http with
      | .timeout => true
      | .connectionError => true
      | .response status_code body =>
          if status_code = 200 then decide (pyStrip body = "") else true

/-- The fixed starting state used for the C3 counterexample. -/
def c3_state : ChatState :=
  { messages := [], messages_sent := 0, errors_count := 0,
    last_message := none, last_response := none }

/-- A fixed construction timestamp. -/
def c3_now : PyDateTime :=
  { year := 2024, month := 1, day := 1, hour := 12, minute := 0, second := 0,
    microsecond := 0 }

/-- C3 counterexample: when the generation step fails (here: the request
to the model server times out), `send_message` does *not* construct an
error-tagged message nor increment the error counter — the gateway
absorbs the failure first and returns an apology string, which
`send_message` wraps in an assistant-tagged message, leaving
`errors_count` at 0. -/
theorem C3_counterexample :
    send_message c3_state (some "mistral:latest") HttpOutcome.timeout c3_now "Hello"
      = Except.ok
          ({ content := "I'm taking too long to respond. Please try a shorter message.",
             message_type := .assistant, timestamp := c3_now, status := .delivered,
             metadata := [] },
           { messages :=
               [user_message_of "Hello" c3_now,
                { content := "I'm taking too long to respond. Please try a shorter message.",
                  message_type := .assistant, timestamp := c3_now, status := .delivered,
                  metadata := [] }],
             messages_sent := 1, errors_count := 0,
             last_message := some "Hello",
             last_response :=
               some "I'm taking too long to respond. Please try a shorter message." }) ∧
    MessageType.assistant ≠ MessageType.error := by
  refine ⟨rfl, by decide⟩

/-- C3 as amended: for every valid input, `send_message` never raises; on
any failure of the underlying generation step the gateway converts the
failure into one of its canned user-safe apology strings, and
`send_message` appends and returns an *assistant*-tagged message carrying
that apology, leaving the error counter unchanged (the error-tagged
branch of `send_message` only runs if the generation call itself raises,
which cannot happen for input that already passed validation). -/
theorem C3_send_message_error_absorption
    (st : ChatState) (default_model : Option String) (http : HttpOutcome)
    (now : PyDateTime) (content : String)
    (hv : validate_message content = true) :
    ∃ m st', send_message st default_model http now content = Except.ok (m, st') ∧
      st'.messages = st.messages ++ [user_message_of content now, m] ∧
      (generation_step_fails default_model http = true →
        m.message_type = MessageType.assistant ∧
        m.content ∈ gen_fallback_strings ∧
        st'.errors_count = st.errors_count) := by
  have hgen : ∃ r, generate_response default_model http content = Except.ok r ∧
      (generation_step_fails default_model http = true → r ∈ gen_fallback_strings) := by
    rcases default_model with _ | dmv
    · refine ⟨"Sorry, there was an error processing your message.", ?_, ?_⟩
      · simp [generate_response, hv, generate_response_try]
      · intro _
        simp [gen_fallback_strings]
    · rcases http with ⟨status_code, body⟩ | _ | _
      · by_cases hc : status_code = 200
        · subst hc
          by_cases hb : pyStrip body = ""
          · refine ⟨"Sorry, I couldn't generate a response. Please try again.", ?_, ?_⟩
            · simp [generate_response, hv, generate_response_try, make_request, hb]
            · intro _
              simp [gen_fallback_strings]
          · refine ⟨pyStrip body, ?_, ?_⟩
            · simp [generate_response, hv, generate_response_try, make_request, hb]
            · intro hf
              simp [generation_step_fails, hb] at hf
        · refine ⟨"Sorry, I couldn't generate a response. Please try again.", ?_, ?_⟩
          · simp [generate_response, hv, generate_response_try, make_request, hc]
          · intro _
            simp [gen_fallback_strings]
      · refine ⟨"I'm taking too long to respond. Please try a shorter message.", ?_, ?_⟩
        · simp [generate_response, hv, generate_response_try, make_request]
        · intro _
          simp [gen_fallback_strings]
      · refine ⟨"Sorry, there was an error processing your message.", ?_, ?_⟩
        · simp [generate_response, hv, generate_response_try, make_request]
        · intro _
          simp [gen_fallback_strings]
  obtain ⟨r, hr, hrf⟩ := hgen
  refine ⟨{ content := r, message_type := .assistant, timestamp := now,
            status := .delivered, metadata := [] },
          { messages := (st.messages ++ [user_message_of content now]) ++
              [{ content := r, message_type := .assistant, timestamp := now,
                 status := .delivered, metadata := [] }],
            messages_sent := st.messages_sent + 1,
            errors_count := st.errors_count,
            last_message := some content,
            last_response := some r }, ?_, ?_, ?_⟩
  · simp [send_message, hv, hr]
  · simp
  · intro hf
    exact ⟨rfl, hrf hf, rfl⟩

/-- Witness for the amended C3: the absorbed-failure shape at a concrete
timed-out call. -/
theorem C3_send_message_error_absorption_witness :
    ∃ m st', send_message c3_state (some "mistral:latest") HttpOutcome.timeout c3_now "Hello"
        = Except.ok (m, st') ∧
      st'.messages = c3_state.messages ++ [user_message_of "Hello" c3_now, m] ∧
      (generation_step_fails (some "mistral:latest") HttpOutcome.timeout = true →
        m.message_type = MessageType.assistant ∧
        m.content ∈ gen_fallback_strings ∧
        st'.errors_count = c3_state.errors_count) :=
  C3_send_message_error_absorption c3_state (some "mistral:latest") HttpOutcome.timeout
    c3_now "Hello" (by decide)

/-! ## Helper lemmas for the translation ladder -/

theorem extend_timeouts_of_not_lt (ts : List Nat) (n : Nat) (h : ¬ ts.length < n) :
    extend_timeouts ts n = some ts := by
  rw [extend_timeouts]
  exact dif_neg h

theorem translate_attempts_skip (text : String) (tr : Translation)
    (model : String) (timeout : Nat) (r : Except OllamaExn String)
    (hr : attempt_fails text r = true)
    (rest : List ((String × Nat) × Except OllamaExn String)) :
    translate_attempts text tr (((model, timeout), r) :: rest)
      = translate_attempts text tr rest := by
  cases r with
  | error e => rfl
  | ok s =>
      have hns : ¬(s ≠ "" ∧ s ≠ text) := by
        simp only [attempt_fails, Bool.or_eq_true, decide_eq_true_eq] at hr
        rcases hr with h | h <;> simp [h]
      simp [translate_attempts, hns]

theorem translate_attempts_success (text : String) (tr : Translation)
    (model : String) (timeout : Nat) (s : String)
    (h1 : s ≠ "") (h2 : s ≠ text)
    (rest : List ((String × Nat) × Except OllamaExn String)) :
    translate_attempts text tr (((model, timeout), Except.ok s) :: rest)
      = tr.mark_completed s (some model) := by
  simp [translate_attempts, h1, h2]

/-! ## Claim C1 -/

/-- C1: with three candidate models, if the first two attempts fail
(raise, or return an empty or unchanged text) and the third returns a
non-empty text different from the input, `translate_text` yields a
`Translation` with status "completed", `model_used` equal to the third
candidate, and `translated_text` populated; if all three attempts fail,
it yields status "failed" with the error message set and
`translated_text` still absent — and in both cases the call returns
normally (no exception escapes). -/
theorem C1_translation_fallback_ladder
    (text : String) (now : PyDateTime) (default_model : Option String)
    (available : List String) (m1 m2 m3 : String)
    (r1 r2 : Except OllamaExn String) (s : String)
    (hv : validate_message text = true)
    (hm : get_translation_models default_model available = [m1, m2, m3])
    (h1 : attempt_fails text r1 = true) (h2 : attempt_fails text r2 = true)
    (hs1 : s ≠ "") (hs2 : s ≠ text) (hm3 : m3 ≠ "") :
    (∃ tr : Translation,
       translate_text text "en" "es" now default_model available
           [r1, r2, Except.ok s] translation_timeouts_init
         = some (tr, translation_timeouts_init) ∧
       tr.status = TranslationStatus.completed ∧
       tr.model_used = some m3 ∧
       tr.translated_text = some s) ∧
    (∀ r3 : Except OllamaExn String, attempt_fails text r3 = true →
       ∃ tr : Translation,
         translate_text text "en" "es" now default_model available
             [r1, r2, r3] translation_timeouts_init
           = some (tr, translation_timeouts_init) ∧
         tr.status = TranslationStatus.failed ∧
         tr.error_message = some "Translation failed with all models" ∧
         tr.translated_text = none) := by
  have hext : extend_timeouts translation_timeouts_init
      (get_translation_models default_model available).length
      = some translation_timeouts_init := by
    rw [hm]
    exact extend_timeouts_of_not_lt _ _ (by simp [translation_timeouts_init])
  have hzip : ∀ r3 : Except OllamaExn String,
      (((get_translation_models default_model available).zip
          translation_timeouts_init).zip [r1, r2, r3])
        = [((m1, 20), r1), ((m2, 30), r2), ((m3, 45), r3)] := by
    intro r3
    rw [hm]
    rfl
  have hbase : ∀ r3 : Except OllamaExn String,
      translate_text text "en" "es" now default_model available
          [r1, r2, r3] translation_timeouts_init
        = some (translate_attempts text
            { pending_translation text "en" "es" now with status := .in_progress }
            [((m1, 20), r1), ((m2, 30), r2), ((m3, 45), r3)],
            translation_timeouts_init) := by
    intro r3
    simp only [translate_text, hv, Bool.true_eq_false, if_false, hext, hzip]
  constructor
  · refine ⟨{ pending_translation text "en" "es" now with
              status := .in_progress }.mark_completed s (some m3), ?_, ?_, ?_, ?_⟩
    · rw [hbase (Except.ok s), translate_attempts_skip _ _ _ _ _ h1,
          translate_attempts_skip _ _ _ _ _ h2,
          translate_attempts_success _ _ _ _ _ hs1 hs2]
    · simp [Translation.mark_completed]
    · simp [Translation.mark_completed, hm3]
    · simp [Translation.mark_completed]
  · intro r3 hr3
    refine ⟨{ pending_translation text "en" "es" now with
              status := .in_progress }.mark_failed
              "Translation failed with all models", ?_, ?_, ?_, ?_⟩
    · rw [hbase r3, translate_attempts_skip _ _ _ _ _ h1,
          translate_attempts_skip _ _ _ _ _ h2,
          translate_attempts_skip _ _ _ _ _ hr3]
      rfl
    · simp [Translation.mark_failed]
    · simp [Translation.mark_failed]
    · simp [Translation.mark_failed, pending_translation]

/-- A fixed construction timestamp for the translation witnesses. -/
def c1_now : PyDateTime :=
  { year := 2024, month := 3, day := 5, hour := 8, minute := 15, second := 42,
    microsecond := 0 }

/-- The model list the server reports in the C1 witness scenario. -/
def c1_available : List String := ["mistral:latest", "mistral:7b", "llama2:7b"]

/-- Witness for C1: a concrete run in which the first attempt times out,
the second returns an empty text, and the third succeeds — and a run in
which the third attempt raises a connection error as well. -/
theorem C1_translation_fallback_ladder_witness :
    (∃ tr : Translation,
       translate_text "Hello friend" "en" "es" c1_now (some "mistral:latest")
           c1_available
           [Except.error OllamaExn.timeoutErr, Except.ok "", Except.ok "Hola amigo"]
           translation_timeouts_init
         = some (tr, translation_timeouts_init) ∧
       tr.status = TranslationStatus.completed ∧
       tr.model_used = some "llama2:7b" ∧
       tr.translated_text = some "Hola amigo") ∧
    (∃ tr : Translation,
       translate_text "Hello friend" "en" "es" c1_now (some "mistral:latest")
           c1_available
           [Except.error OllamaExn.timeoutErr, Except.ok "",
            Except.error OllamaExn.connectionErr]
           translation_timeouts_init
         = some (tr, translation_timeouts_init) ∧
       tr.status = TranslationStatus.failed ∧
       tr.error_message = some "Translation failed with all models" ∧
       tr.translated_text = none) := by
  have h := C1_translation_fallback_ladder "Hello friend" c1_now (some "mistral:latest")
    c1_available "mistral:latest" "mistral:7b" "llama2:7b"
    (Except.error OllamaExn.timeoutErr) (Except.ok "") "Hola amigo"
    (by decide) (by decide) (by decide) (by decide) (by decide) (by decide) (by decide)
  exact ⟨h.1, h.2 (Except.error OllamaExn.connectionErr) (by decide)⟩

/-! ## Claim C10 -/

theorem extend_timeouts_spec (n : Nat) (ts : List Nat) (hne : ts ≠ []) :
    ∃ ts', extend_timeouts ts n = some ts' ∧ ts'.take ts.length = ts ∧
      ts'.length = max ts.length n := by
  have key : ∀ (k : Nat) (ts : List Nat), n - ts.length ≤ k → ts ≠ [] →
      ∃ ts', extend_timeouts ts n = some ts' ∧ ts'.take ts.length = ts ∧
        ts'.length = max ts.length n := by
    intro k
    induction k with
    | zero =>
        intro ts hk hne
        have hnlt : ¬ ts.length < n := by omega
        exact ⟨ts, extend_timeouts_of_not_lt ts n hnlt, List.take_length ts, by omega⟩
    | succ k ih =>
        intro ts hk hne
        by_cases hlt : ts.length < n
        · obtain ⟨a, t, rfl⟩ : ∃ a t, ts = a :: t := by
            cases ts with
            | nil => exact absurd rfl hne
            | cons a t => exact ⟨a, t, rfl⟩
          rcases hgl : (a :: t).getLast? with _ | last
          · simp [List.getLast?] at hgl
          · have hstep : extend_timeouts (a :: t) n
                = extend_timeouts ((a :: t) ++ [last + 15]) n := by
              rw [extend_timeouts, dif_pos hlt, hgl]
            obtain ⟨ts', h1, h2, h3⟩ := ih ((a :: t) ++ [last + 15])
              (by
                have hls : ((a :: t) ++ [last + 15]).length = (a :: t).length + 1 := by
                  simp
                rw [hls]
                omega)
              (by simp)
            refine ⟨ts', by rw [hstep]; exact h1, ?_, ?_⟩
            · have htk : ts'.take ((a :: t).length + 1) = (a :: t) ++ [last + 15] := by
                simpa [List.length_append] using h2
              calc ts'.take (a :: t).length
                  = (ts'.take ((a :: t).length + 1)).take (a :: t).length := by
                    rw [List.take_take]
                    congr 1
                    omega
                _ = ((a :: t) ++ [last + 15]).take (a :: t).length := by rw [htk]
                _ = a :: t := List.take_left (a :: t) [last + 15]
            · simp only [List.length_append] at h3
              have h1len : ([last + 15] : List Nat).length = 1 := rfl
              rw [h1len] at h3
              rw [h3]
              omega
        · exact ⟨ts, extend_timeouts_of_not_lt ts n hlt, List.take_length ts, by omega⟩
  exact key n ts (by omega) hne

/-- C10: `translate_text` extends the very list object stored in
`AppConfig.MODEL_CONFIG['translation_timeouts']` (the per-instance config
is only a shallow copy) by +15 s per extra candidate model, so with four
candidate models the shared list grows from `[20, 30, 45]` to
`[20, 30, 45, 60]`, the grown list is what every later call (from any
service instance in the process) starts from — a fifth candidate then
extends it to `[20, 30, 45, 60, 75]` — and in general the shared list is
permanently extended in place (its old contents are a prefix of the new)
to the number of candidate models. -/
theorem C10_translation_timeouts_shared_growth :
    (extend_timeouts translation_timeouts_init 4 = some [20, 30, 45, 60]) ∧
    (∀ (text : String) (now : PyDateTime) (default_model : Option String)
       (available : List String) (attempts : List (Except OllamaExn String)),
       validate_message text = true →
       (get_translation_models default_model available).length = 4 →
       ∃ tr, translate_text text "en" "es" now default_model available attempts
           translation_timeouts_init
         = some (tr, [20, 30, 45, 60])) ∧
    (extend_timeouts [20, 30, 45, 60] 5 = some [20, 30, 45, 60, 75]) ∧
    (∀ (ts : List Nat) (n : Nat), ts ≠ [] →
       ∃ ts', extend_timeouts ts n = some ts' ∧ ts'.take ts.length = ts ∧
         ts'.length = max ts.length n) := by
  have h4 : extend_timeouts translation_timeouts_init 4 = some [20, 30, 45, 60] := by
    simp [extend_timeouts, translation_timeouts_init]
  refine ⟨h4, ?_, by simp [extend_timeouts],
          fun ts n hne => extend_timeouts_spec n ts hne⟩
  intro text now default_model available attempts hv hlen
  refine ⟨translate_attempts text
      { pending_translation text "en" "es" now with
        status := TranslationStatus.in_progress }
      (((get_translation_models default_model available).zip
          [20, 30, 45, 60]).zip attempts), ?_⟩
  simp only [translate_text, hv, Bool.true_eq_false, if_false, hlen, h4]

/-- Witness for C10: the four-candidate growth observed on a concrete
call, and the general prefix-extension fact at a concrete list. -/
theorem C10_translation_timeouts_shared_growth_witness :
    (∃ tr, translate_text "Hello" "en" "es" c1_now (some "mistral:latest")
        ["mistral:latest", "mistral:7b", "mistral-small", "llama2:7b"] []
        translation_timeouts_init
      = some (tr, [20, 30, 45, 60])) ∧
    (∃ ts', extend_timeouts [20, 30, 45] 7 = some ts' ∧
       ts'.take ([20, 30, 45] : List Nat).length = [20, 30, 45] ∧
       ts'.length = max ([20, 30, 45] : List Nat).length 7) :=
  ⟨C10_translation_timeouts_shared_growth.2.1 "Hello" c1_now (some "mistral:latest")
     ["mistral:latest", "mistral:7b", "mistral-small", "llama2:7b"] []
     (by decide) (by decide),
   C10_translation_timeouts_shared_growth.2.2.2 [20, 30, 45] 7 (by decide)⟩
